import Mathlib

/-!
Verification of the IPC command router of the Tailor desktop application
(`src-tauri/src/ipc_router_temp.rs`).

The router composes four collaborators: a dependency checker, a window
manager (vault session registry), a sidecar manager (worker supervisor)
and the front-end command surface.  Only the router's source is in the
repository; the collaborator components are modelled from the
specification.  Outcomes of external effects (dependency installation,
host-UI window creation, process spawn, process termination) are passed
to each router function as explicit `Except` parameters, so every
execution path of the Rust source is a value of the Lean function.
-/

set_option autoImplicit false
set_option linter.unusedVariables false

namespace Tailor

/-- A minimal JSON value type standing for `serde_json::Value`. -/
inductive Json where
  | null
  | str (s : String)
  | num (n : Int)
  | obj (fields : List (String × Json))

/-- The `VaultInfo` struct returned by `open_vault` and
`get_current_vault_info` (field names as in the Rust source). -/
structure VaultInfo where
  window_label : String
  vault_path : String
  ws_port : Nat
  deriving DecidableEq, Repr

/-- The shared application state: the vault session registry's mapping
window label to vault path, and the sidecar supervisor's mapping window
label to WebSocket port. -/
structure AppState where
  windows : List (String × String)
  sidecars : List (String × Nat)
  deriving DecidableEq, Repr

/-- Observable steps the router takes, used to state ordering claims. -/
inductive Event where
  | preflight (vault_path : String)
  | createWindow (vault_path : String)
  | spawnSidecar (label : String) (vault_path : String)
  | sendRequest (port : Nat)
  | terminateSidecar (label : String)
  | removeWindow (label : String)
  deriving DecidableEq, Repr

/-- Modelled from the spec: `WindowManager.get_vault_path` is the
registry's read-only lookup `vault_path_of(window_id) -> Option<path>`
(section 4.2). -/
def get_vault_path (s : AppState) (label : String) : Option String :=
  (s.windows.find? (fun p => p.1 == label)).map Prod.snd

/-- Modelled from the spec: `SidecarManager.get_ws_port` is the
supervisor's `endpoint_of(window_id) -> Option<port>`, returning the
port only for a ready handle and `none` otherwise (section 4.3). -/
def get_ws_port (s : AppState) (label : String) : Option Nat :=
  (s.sidecars.find? (fun p => p.1 == label)).map Prod.snd

/-- Modelled from the spec: `WindowManager.create_vault_window` asks the
host UI layer to materialize a window and, on success, records the
window session (section 4.2).  The host UI layer's verdict is the
`res` parameter. -/
def create_vault_window (res : Except String String) (vault_path : String)
    (s : AppState) : Except String String × AppState :=
  match res with
  | .error e => (.error e, s)
  | .ok label => (.ok label, { s with windows := (label, vault_path) :: s.windows })

/-- Modelled from the spec: `SidecarManager.spawn_sidecar` launches the
worker process and, on success, records the ready handle with its port
(section 4.3).  The spawn outcome is the `res` parameter. -/
def spawn_sidecar (res : Except String Nat) (label : String)
    (s : AppState) : Except String Nat × AppState :=
  match res with
  | .error e => (.error e, s)
  | .ok port => (.ok port, { s with sidecars := (label, port) :: s.sidecars })

/-- Modelled from the spec: `SidecarManager.terminate_sidecar` signals
the worker and, on success, releases the handle (section 4.3).  The
supervisor owns only sidecar handles, never window sessions, so the
window map is untouched either way. -/
def terminate_sidecar (res : Except String Unit) (label : String)
    (s : AppState) : Except String Unit × AppState :=
  match res with
  | .error e => (.error e, s)
  | .ok _ => (.ok (), { s with sidecars := s.sidecars.filter (fun p => p.1 != label) })

/-- Modelled from the spec: `WindowManager.remove_window` deletes the
session entry, a no-op if already absent (section 4.2). -/
def remove_window (label : String) (s : AppState) : AppState :=
  { s with windows := s.windows.filter (fun p => p.1 != label) }

/-- The `open_vault` command: dependency preflight, then window
creation, then sidecar spawn, each failure formatted and propagated
with `?` exactly as in the Rust source.  Returns the command result,
the final state and the trace of steps performed. -/
def open_vault (pre : Except String Unit) (createRes : Except String String)
    (spawnRes : Except String Nat) (vault_path : String) (s : AppState) :
    Except String VaultInfo × AppState × List Event :=
  match pre with
  | .error e =>
      (.error ("Failed to install dependencies: " ++ e), s, [.preflight vault_path])
  | .ok _ =>
      match create_vault_window createRes vault_path s with
      | (.error e, s1) =>
          (.error ("Failed to create window: " ++ e), s1,
            [.preflight vault_path, .createWindow vault_path])
      | (.ok label, s1) =>
          match spawn_sidecar spawnRes label s1 with
          | (.error e, s2) =>
              (.error ("Failed to spawn sidecar: " ++ e), s2,
                [.preflight vault_path, .createWindow vault_path,
                  .spawnSidecar label vault_path])
          | (.ok port, s2) =>
              (.ok ⟨label, vault_path, port⟩, s2,
                [.preflight vault_path, .createWindow vault_path,
                  .spawnSidecar label vault_path])

/-- The constant JSON object the Rust source returns from
`send_to_sidecar` in place of real WebSocket communication. -/
def placeholder_response : Json :=
  .obj [("status", .str "pending"),
        ("message", .str "WebSocket communication not yet implemented")]

/-- The `send_to_sidecar` command: resolves the window's port and fails
with the not-found message if absent; otherwise the Rust source sends
nothing to the worker and returns `placeholder_response`.  The trace is
empty on both paths because no request ever reaches a worker. -/
def send_to_sidecar (label : String) (command : Json) (s : AppState) :
    Except String Json × List Event :=
  match get_ws_port s label with
  | none => (.error ("Sidecar not found for window: " ++ label), [])
  | some _ => (.ok placeholder_response, [])

/-- The `close_vault` command: terminate the sidecar, propagating a
formatted failure with `?` exactly as in the Rust source, and only on
success remove the window from tracking. -/
def close_vault (termRes : Except String Unit) (label : String) (s : AppState) :
    Except String Unit × AppState × List Event :=
  match terminate_sidecar termRes label s with
  | (.error e, s1) =>
      (.error ("Failed to terminate sidecar: " ++ e), s1, [.terminateSidecar label])
  | (.ok _, s1) =>
      (.ok (), remove_window label s1, [.terminateSidecar label, .removeWindow label])

/-- The `get_current_vault_info` command: the Rust source takes no
window-identifier argument; it reads the label of the invoking
`tauri::Window`, which is the `callerLabel` parameter here, and resolves
the vault path and then the port for that label. -/
def get_current_vault_info (callerLabel : String) (s : AppState) :
    Except String VaultInfo :=
  match get_vault_path s callerLabel with
  | none => .error "Vault not found for this window"
  | some vault_path =>
      match get_ws_port s callerLabel with
      | none => .error "Sidecar not found for this window"
      | some ws_port => .ok ⟨callerLabel, vault_path, ws_port⟩

/-- Helper: a lookup keyed on `label` finds nothing in a list from which
every entry with key `label` has been filtered out. -/
theorem find?_filter_self_none {β : Type} (label : String) (l : List (String × β)) :
    (l.filter (fun p => p.1 != label)).find? (fun p => p.1 == label) = none := by
  rw [List.find?_eq_none]
  intro x hx
  have h2 := (List.mem_filter.mp hx).2
  simp only [bne_iff_ne, ne_eq, decide_eq_true_eq] at h2
  simp [h2]

/-- C1: if the dependency preflight step fails, `open_vault` returns the
preflight error with the state unchanged (no window session entry
created, no sidecar recorded) and the trace shows that neither window
creation nor sidecar spawn was performed. -/
theorem open_vault_preflight_failure (e : String) (createRes : Except String String)
    (spawnRes : Except String Nat) (vault_path : String) (s : AppState) :
    open_vault (.error e) createRes spawnRes vault_path s
      = (.error ("Failed to install dependencies: " ++ e), s,
          [Event.preflight vault_path]) :=
  rfl

/-- C2 counterexample: with window `w1` registered and a sidecar whose
termination fails, `close_vault` returns the termination error and the
window session entry is still present — the registry cleanup did not
run, contradicting the claim that it runs regardless. -/
theorem close_vault_counterexample_cleanup_skipped :
    (close_vault (.error "process refuses to die") "w1"
        ⟨[("w1", "/vaults/a")], [("w1", 8080)]⟩).1
      = .error "Failed to terminate sidecar: process refuses to die" ∧
    ("w1", "/vaults/a") ∈ (close_vault (.error "process refuses to die") "w1"
        ⟨[("w1", "/vaults/a")], [("w1", 8080)]⟩).2.1.windows := by
  exact ⟨rfl, by simp [close_vault, terminate_sidecar]⟩

/-- C2 (amended): if the sidecar-termination step fails, `close_vault`
returns the termination error and skips the registry cleanup entirely —
the state is returned unchanged, so the window session entry is not
removed. -/
theorem close_vault_termination_failure_skips_cleanup (e label : String)
    (s : AppState) :
    close_vault (.error e) label s
      = (.error ("Failed to terminate sidecar: " ++ e), s,
          [Event.terminateSidecar label]) :=
  rfl

/-- C3: at the failing input (window `w1` registered with a ready
sidecar on port 8080, command `ping`), `send_to_sidecar` returns the
fixed placeholder object and sends nothing to the worker, instead of
returning the worker's own response. -/
theorem send_to_sidecar_returns_placeholder :
    send_to_sidecar "w1" (Json.obj [("method", Json.str "ping")])
        ⟨[("w1", "/vaults/a")], [("w1", 8080)]⟩
      = (.ok placeholder_response, []) :=
  rfl

/-- C4: when window creation succeeds and sidecar spawn fails,
`open_vault` returns the spawn error and the window session entry
recorded at window-creation time is still registered in the final
state — there is no compensating window teardown. -/
theorem open_vault_spawn_failure_keeps_window (label e vault_path : String)
    (s : AppState) :
    open_vault (.ok ()) (.ok label) (.error e) vault_path s
      = (.error ("Failed to spawn sidecar: " ++ e),
          { s with windows := (label, vault_path) :: s.windows },
          [Event.preflight vault_path, Event.createWindow vault_path,
            Event.spawnSidecar label vault_path]) ∧
    (label, vault_path)
      ∈ (open_vault (.ok ()) (.ok label) (.error e) vault_path s).2.1.windows := by
  exact ⟨rfl, by simp [open_vault, create_vault_window, spawn_sidecar]⟩

/-- C5: when preflight, window creation and sidecar spawn all succeed,
`open_vault` returns exactly the triple of the created window's label,
the input vault path unchanged, and the port returned by the spawn. -/
theorem open_vault_success_triple (label vault_path : String) (port : Nat)
    (s : AppState) :
    (open_vault (.ok ()) (.ok label) (.ok port) vault_path s).1
      = .ok ⟨label, vault_path, port⟩ :=
  rfl

/-- C6: the trace of `close_vault` is either the termination step alone
or the termination step followed by the registry removal step, so the
removal step never precedes the termination step. -/
theorem close_vault_teardown_order (termRes : Except String Unit) (label : String)
    (s : AppState) :
    (close_vault termRes label s).2.2 = [Event.terminateSidecar label] ∨
    (close_vault termRes label s).2.2
      = [Event.terminateSidecar label, Event.removeWindow label] := by
  cases termRes <;> simp [close_vault, terminate_sidecar]

/-- C7: when no ready sidecar port is recorded for the window (unknown
window or spawn not completed), `send_to_sidecar` fails fast with the
`Sidecar not found` error and its trace is empty, so no request reaches
any worker. -/
theorem send_to_sidecar_no_sidecar (label : String) (command : Json) (s : AppState)
    (h : get_ws_port s label = none) :
    send_to_sidecar label command s
      = (.error ("Sidecar not found for window: " ++ label), []) := by
  simp [send_to_sidecar, h]

/-- C7 witness: on the empty state the lookup is `none` and the call
fails with the `Sidecar not found` error. -/
theorem send_to_sidecar_no_sidecar_witness :
    send_to_sidecar "w1" (Json.obj [("method", Json.str "ping")]) ⟨[], []⟩
      = (.error ("Sidecar not found for window: " ++ "w1"), []) :=
  send_to_sidecar_no_sidecar "w1" (Json.obj [("method", Json.str "ping")]) ⟨[], []⟩ rfl

/-- C8: after a successful `close_vault` for a window label, querying
`get_current_vault_info` for that same label fails with the
`Vault not found for this window` error: its session entry is absent
from the registry. -/
theorem close_vault_then_info_not_found (label : String) (s : AppState) :
    get_current_vault_info label (close_vault (.ok ()) label s).2.1
      = .error "Vault not found for this window" := by
  have h : get_vault_path (close_vault (.ok ()) label s).2.1 label = none := by
    simp [close_vault, terminate_sidecar, remove_window, get_vault_path,
      find?_filter_self_none]
  simp [get_current_vault_info, h]

/-- C9: for a window whose session entry is registered but whose sidecar
has no port, `get_current_vault_info` fails with the distinct
`Sidecar not found for this window` error and not with the
`Vault not found for this window` error. -/
theorem current_vault_info_distinguishes_no_sidecar (label vp : String) (s : AppState)
    (h1 : get_vault_path s label = some vp) (h2 : get_ws_port s label = none) :
    get_current_vault_info label s = .error "Sidecar not found for this window" ∧
    get_current_vault_info label s ≠ .error "Vault not found for this window" := by
  have hmain : get_current_vault_info label s
      = .error "Sidecar not found for this window" := by
    simp [get_current_vault_info, h1, h2]
  refine ⟨hmain, ?_⟩
  rw [hmain]
  intro hcontra
  have hs := Except.error.inj hcontra
  exact absurd hs (by decide)

/-- C9 witness: window `w1` registered with no sidecar entry yields the
`Sidecar not found` error, distinct from the `Vault not found` error. -/
theorem current_vault_info_distinguishes_no_sidecar_witness :
    get_current_vault_info "w1" ⟨[("w1", "/vaults/a")], []⟩
      = .error "Sidecar not found for this window" ∧
    get_current_vault_info "w1" ⟨[("w1", "/vaults/a")], []⟩
      ≠ .error "Vault not found for this window" :=
  current_vault_info_distinguishes_no_sidecar "w1" "/vaults/a"
    ⟨[("w1", "/vaults/a")], []⟩ (by decide) (by decide)

/-- C10: `get_current_vault_info` takes no window-identifier argument —
its only window input is the invoking window's own label — and whenever
it succeeds, the returned information is resolved entirely from that
caller's label: the returned label is the caller's, and the vault path
and port are the registry entries keyed on the caller's label. -/
theorem current_vault_info_caller_scoped (callerLabel : String) (s : AppState)
    (info : VaultInfo) (h : get_current_vault_info callerLabel s = .ok info) :
    info.window_label = callerLabel ∧
    get_vault_path s callerLabel = some info.vault_path ∧
    get_ws_port s callerLabel = some info.ws_port := by
  unfold get_current_vault_info at h
  cases hv : get_vault_path s callerLabel with
  | none => rw [hv] at h; exact absurd h (by simp)
  | some vp =>
    rw [hv] at h
    cases hp : get_ws_port s callerLabel with
    | none => rw [hp] at h; exact absurd h (by simp)
    | some port =>
      rw [hp] at h
      simp only [Except.ok.injEq] at h
      subst h
      simp_all

/-- C10 witness: a concrete state where the call succeeds; the result is
scoped to the caller label `w1`. -/
theorem current_vault_info_caller_scoped_witness :
    VaultInfo.window_label ⟨"w1", "/vaults/a", 8080⟩ = "w1" ∧
    get_vault_path ⟨[("w1", "/vaults/a")], [("w1", 8080)]⟩ "w1" = some "/vaults/a" ∧
    get_ws_port ⟨[("w1", "/vaults/a")], [("w1", 8080)]⟩ "w1" = some 8080 :=
  current_vault_info_caller_scoped "w1" ⟨[("w1", "/vaults/a")], [("w1", 8080)]⟩
    ⟨"w1", "/vaults/a", 8080⟩ rfl

end Tailor
